import Mathlib

/-!
Verification development for the snarkVM proving/verification core:
the Marlin AHP verifier round protocol
(`src/algorithms/src/snark/marlin/ahp/verifier/verifier.rs`) and the
batched proof trace (`src/synthesizer/src/process/trace/mod.rs`).

The Rust code is shallowly embedded: the generic prime field becomes a
type parameter `F` with `[Field F] [DecidableEq F]`; the algebraic
sponge (`AlgebraicSponge::squeeze_nonnative_field_elements`) becomes a
deterministic stream with a position counter; the external evaluation
domain builder (`EvaluationDomain::new`) becomes a parameter
`Nat → Option (EvaluationDomain F)`; Rust `Result` becomes an explicit
outcome type, with a separate constructor for panics (`assert!`
failures and unsigned-integer underflow in checked builds), which are
hard aborts and not returned errors.
-/

namespace SnarkVM

/-- Outcome of a Rust function: a returned `Ok` value, a returned typed
error, or a panic (`assert!` failure / arithmetic underflow in checked
builds), which does not return at all. -/
inductive Outcome (ε α : Type) where
  | ok (a : α)
  | err (e : ε)
  | panicked
deriving DecidableEq

/-- `true` exactly on the `ok` constructor. -/
def Outcome.isOk {ε α : Type} : Outcome ε α → Bool
  | .ok _ => true
  | _ => false

/-- Error kinds of the AHP verifier rounds, from `AHPError`.
`PolynomialDegreeTooLarge` is the kind the specification calls
`DomainTooLarge`: it is returned when `EvaluationDomain::new` fails. -/
inductive AHPError where
  | NonSquareMatrix
  | PolynomialDegreeTooLarge
deriving DecidableEq

/-- The circuit descriptor `CircuitInfo`: constraint, variable and
public-input counts plus the non-zero entry counts of the three
constraint matrices. -/
structure CircuitInfo where
  num_constraints : Nat
  num_variables : Nat
  num_public_inputs : Nat
  num_non_zero_a : Nat
  num_non_zero_b : Nat
  num_non_zero_c : Nat
deriving DecidableEq

/-- An evaluation domain, an external algebraic collaborator: all the
verifier rounds use of it is its size and vanishing-polynomial
evaluation. -/
structure EvaluationDomain (F : Type) where
  size : Nat
  evaluate_vanishing_polynomial : F → F

/-- The Fiat-Shamir sponge, an external collaborator: a deterministic
stream of field elements together with how many elements have been
squeezed so far.  `squeeze_nonnative_field_elements n` returns the next
`n` stream elements and advances the position by `n`. -/
structure Sponge (F : Type) where
  stream : Nat → F
  pos : Nat

/-- `AlgebraicSponge::squeeze_nonnative_field_elements`: extract `n`
field elements, advancing the sponge. -/
def Sponge.squeeze_nonnative_field_elements {F : Type} :
    Sponge F → Nat → List F × Sponge F
  | s, 0 => ([], s)
  | s, n + 1 =>
    let rest := Sponge.squeeze_nonnative_field_elements ⟨s.stream, s.pos + 1⟩ n
    (s.stream s.pos :: rest.1, rest.2)

/-- Per-circuit batching combiners: the circuit-level combiner and the
ordered per-instance combiners. -/
structure BatchCombiners (F : Type) where
  circuit_combiner : F
  instance_combiners : List F
deriving DecidableEq

/-- The verifier's first-round message.  Circuits are identified by a
key of type `Nat`; the `batch_combiners` list models the `BTreeMap` in
its (canonical, key-sorted) iteration order. -/
structure FirstMessage (F : Type) where
  alpha : F
  eta_b : F
  eta_c : F
  batch_combiners : List (Nat × BatchCombiners F)
deriving DecidableEq

/-- The verifier's second-round message. -/
structure SecondMessage (F : Type) where
  beta : F
deriving DecidableEq

/-- The verifier's third-round message. -/
structure ThirdMessage (F : Type) where
  r_b : F
  r_c : F
deriving DecidableEq

/-- The verifier `State`, threaded through the rounds.  `batch_sizes`
models the `BTreeMap<&Circuit, usize>` as a list of
(circuit key, instance count) pairs in canonical iteration order. -/
structure State (F : Type) where
  batch_sizes : List (Nat × Nat)
  input_domain : EvaluationDomain F
  constraint_domain : EvaluationDomain F
  non_zero_a_domain : EvaluationDomain F
  non_zero_b_domain : EvaluationDomain F
  non_zero_c_domain : EvaluationDomain F
  first_round_message : Option (FirstMessage F)
  second_round_message : Option (SecondMessage F)
  third_round_message : Option (ThirdMessage F)
  gamma : Option F

variable {F : Type} [Field F] [DecidableEq F]

/-- The per-circuit combiner loop of `verifier_first_round`.  For each
circuit it squeezes `batch_size - 1 + circuit_combiners_needed`
elements, takes the first `batch_size - 1` as the non-first instance
combiners and the remainder (at most one element, by the source's
`assert!(circuit_combiner.len() < 2)`) as the circuit combiner;
`circuit_combiners_needed` is `0` for the first circuit and `1`
afterwards.  A `batch_size` of `0` makes `instances - 1` underflow on
`usize`, a panic in checked builds. -/
def squeeze_batch_combiners (circuit_combiners_needed : Nat) (fs_rng : Sponge F) :
    List (Nat × Nat) → Outcome AHPError (List (Nat × BatchCombiners F) × Sponge F)
  | [] => .ok ([], fs_rng)
  | (circuit, batch_size) :: rest =>
    if batch_size = 0 then .panicked
    else
      let squeezed := fs_rng.squeeze_nonnative_field_elements
        (batch_size - 1 + circuit_combiners_needed)
      let instance_combiners := squeezed.1.take (batch_size - 1)
      let circuit_combiner := squeezed.1.drop (batch_size - 1)
      if 2 ≤ circuit_combiner.length then .panicked
      else
        let cc : F := match circuit_combiner with
          | [c] => c
          | _ => 1
        let combiners : BatchCombiners F := ⟨cc, 1 :: instance_combiners⟩
        match squeeze_batch_combiners 1 squeezed.2 rest with
        | .ok (tail, rng') => .ok ((circuit, combiners) :: tail, rng')
        | .err e => .err e
        | .panicked => .panicked

/-- `AHPForR1CS::verifier_first_round`: rejects non-square systems,
builds the five evaluation domains, squeezes `alpha, eta_b, eta_c`,
derives the batch combiners, asserts `alpha` is not a vanishing root of
the constraint domain, and returns the first message and fresh state. -/
def verifier_first_round (domain_new : Nat → Option (EvaluationDomain F))
    (index_info : CircuitInfo) (batch_sizes : List (Nat × Nat)) (fs_rng : Sponge F) :
    Outcome AHPError (FirstMessage F × State F × Sponge F) :=
  if index_info.num_constraints ≠ index_info.num_variables then
    .err .NonSquareMatrix
  else
    match domain_new index_info.num_constraints with
    | none => .err .PolynomialDegreeTooLarge
    | some constraint_domain =>
    match domain_new index_info.num_non_zero_a with
    | none => .err .PolynomialDegreeTooLarge
    | some non_zero_a_domain =>
    match domain_new index_info.num_non_zero_b with
    | none => .err .PolynomialDegreeTooLarge
    | some non_zero_b_domain =>
    match domain_new index_info.num_non_zero_c with
    | none => .err .PolynomialDegreeTooLarge
    | some non_zero_c_domain =>
    match domain_new index_info.num_public_inputs with
    | none => .err .PolynomialDegreeTooLarge
    | some input_domain =>
    match fs_rng.squeeze_nonnative_field_elements 3 with
    | ([alpha, eta_b, eta_c], rng1) =>
      match squeeze_batch_combiners 0 rng1 batch_sizes with
      | .err e => .err e
      | .panicked => .panicked
      | .ok (batch_combiners, rng2) =>
        if constraint_domain.evaluate_vanishing_polynomial alpha = 0 then
          .panicked
        else
          let message : FirstMessage F := ⟨alpha, eta_b, eta_c, batch_combiners⟩
          .ok (message,
            ⟨batch_sizes, input_domain, constraint_domain, non_zero_a_domain,
              non_zero_b_domain, non_zero_c_domain, some message, none, none, none⟩,
            rng2)
    | (_, _) => .panicked

/-- `AHPForR1CS::verifier_second_round`: squeezes `beta`, asserts it is
not a vanishing root of the constraint domain, and records the second
message. -/
def verifier_second_round (state : State F) (fs_rng : Sponge F) :
    Outcome AHPError (SecondMessage F × State F × Sponge F) :=
  match fs_rng.squeeze_nonnative_field_elements 1 with
  | ([beta], rng1) =>
    if state.constraint_domain.evaluate_vanishing_polynomial beta = 0 then
      .panicked
    else
      let message : SecondMessage F := ⟨beta⟩
      .ok (message, { state with second_round_message := some message }, rng1)
  | (_, _) => .panicked

/-- `AHPForR1CS::verifier_third_round`: squeezes `r_b, r_c` and records
the third message. -/
def verifier_third_round (state : State F) (fs_rng : Sponge F) :
    Outcome AHPError (ThirdMessage F × State F × Sponge F) :=
  match fs_rng.squeeze_nonnative_field_elements 2 with
  | ([r_b, r_c], rng1) =>
    let message : ThirdMessage F := ⟨r_b, r_c⟩
    .ok (message, { state with third_round_message := some message }, rng1)
  | (_, _) => .panicked

/-- `AHPForR1CS::verifier_fourth_round`: squeezes `gamma` and records it
in the state; no message is produced. -/
def verifier_fourth_round (state : State F) (fs_rng : Sponge F) :
    Outcome AHPError (State F × Sponge F) :=
  match fs_rng.squeeze_nonnative_field_elements 1 with
  | ([gamma], rng1) => .ok ({ state with gamma := some gamma }, rng1)
  | (_, _) => .panicked

/-- The full four-round verifier protocol: rounds 1–4 chained in order,
threading the state and the sponge. -/
def full_protocol (domain_new : Nat → Option (EvaluationDomain F))
    (index_info : CircuitInfo) (batch_sizes : List (Nat × Nat)) (fs_rng : Sponge F) :
    Outcome AHPError ((FirstMessage F × SecondMessage F × ThirdMessage F) × State F × Sponge F) :=
  match verifier_first_round domain_new index_info batch_sizes fs_rng with
  | .err e => .err e
  | .panicked => .panicked
  | .ok (m1, s1, r1) =>
    match verifier_second_round s1 r1 with
    | .err e => .err e
    | .panicked => .panicked
    | .ok (m2, s2, r2) =>
      match verifier_third_round s2 r2 with
      | .err e => .err e
      | .panicked => .panicked
      | .ok (m3, s3, r3) =>
        match verifier_fourth_round s3 r3 with
        | .err e => .err e
        | .panicked => .panicked
        | .ok (s4, r4) => .ok ((m1, m2, m3), s4, r4)

/-- The sequence of challenges a run extracted from the sponge: the
stream segment between the starting and final positions. -/
def Sponge.extracted (start final : Sponge F) : List F :=
  (List.range (final.pos - start.pos)).map fun i => start.stream (start.pos + i)

/-!
The batch proof trace, from `src/synthesizer/src/process/trace/mod.rs`.
State roots (`N::StateRoot`, an external type whose `default()` is the
zero sentinel), circuit assignments, proving keys, inclusion-task
accumulators, input identifiers and proofs are opaque type parameters;
the external collaborators (the `Inclusion` subsystem, the
`to_circuit_assignment` conversion, and the Key Batch Engine
`ProvingKey::prove_batch`) are function parameters, so every theorem
below quantifies over all of their behaviours.  Rust `Result` with
`anyhow` string errors becomes `Except String`; the two `OnceCell`
write-once cells become `Option` values with a check-and-set.
-/

/-- A `Locator`: program identity plus function (entry point) identity. -/
structure Locator where
  program_id : String
  function_name : String
deriving DecidableEq

/-- A `Transition`: the embedding keeps the fields the trace reads, the
program identity and function name forming its `Locator`. -/
structure Transition where
  program_id : String
  function_name : String
deriving DecidableEq

/-- A state path; the trace only reads its global state root. -/
structure StatePath (R : Type) where
  global_state_root : R
deriving DecidableEq

/-- An `InclusionAssignment`: a membership witness carrying the state
path it was computed against. -/
structure InclusionAssignment (R : Type) where
  state_path : StatePath R
deriving DecidableEq

/-- A `Trace`: ordered transitions, the locator-keyed proving tasks
(the `HashMap<Locator, (ProvingKey, Vec<Assignment>)>`, embedded as an
association list), the inclusion-task accumulator, and the two
write-once cells. -/
structure Trace (R A PK ITk : Type) where
  transitions : List Transition
  transition_tasks : List (Locator × PK × List A)
  inclusion_tasks : ITk
  inclusion_assignments : Option (List (InclusionAssignment R))
  global_state_root : Option R

/-- `OnceCell::set`: succeeds exactly when the cell is still unset. -/
def OnceCell.set {α : Type} : Option α → α → Except Unit (Option α)
  | some _, _ => .error ()
  | none, v => .ok (some v)

section TraceOps

variable {R A PK ITk Pf InputID : Type}

/-- `HashMap::entry(locator).or_insert((pk, vec![])).1.push(assignment)`:
append the assignment under the locator, inserting the proving key only
when the locator is new; an existing entry keeps its original key. -/
def tasksInsert (loc : Locator) (pk : PK) (a : A) :
    List (Locator × PK × List A) → List (Locator × PK × List A)
  | [] => [(loc, pk, [a])]
  | (l, p, asgs) :: rest =>
    if l = loc then (l, p, asgs ++ [a]) :: rest
    else (l, p, asgs) :: tasksInsert loc pk a rest

/-- Lookup in the locator-keyed task map. -/
def tasksLookup (loc : Locator) :
    List (Locator × PK × List A) → Option (PK × List A)
  | [] => none
  | (l, p, asgs) :: rest => if l = loc then some (p, asgs) else tasksLookup loc rest

/-- `HashMap::insert`: replace the value under the key, or append. -/
def tasksInsertMap (loc : Locator) (v : PK × List A) :
    List (Locator × PK × List A) → List (Locator × PK × List A)
  | [] => [(loc, v.1, v.2)]
  | (l, p, asgs) :: rest =>
    if l = loc then (l, v.1, v.2) :: rest
    else (l, p, asgs) :: tasksInsertMap loc v rest

/-- `Trace::insert_transition`: rejected once either write-once cell is
set; forwards to the inclusion accumulator (the external
`inclusion_insert`), then appends the assignment under the transition's
locator and the transition to the ordered list. -/
def Trace.insert_transition
    (inclusion_insert : ITk → List InputID → Transition → Except String ITk)
    (t : Trace R A PK ITk) (input_ids : List InputID) (transition : Transition)
    (proving_key : PK) (assignment : A) : Except String (Trace R A PK ITk) :=
  if t.inclusion_assignments.isSome then
    .error ("inclusion assignments have been set")
  else if t.global_state_root.isSome then
    .error ("global state root has been set")
  else
    match inclusion_insert t.inclusion_tasks input_ids transition with
    | .error e => .error e
    | .ok itk =>
      let locator := Locator.mk transition.program_id transition.function_name
      .ok { t with
            inclusion_tasks := itk
            transition_tasks := tasksInsert locator proving_key assignment t.transition_tasks
            transitions := t.transitions ++ [transition] }

/-- `Trace::is_fee`: exactly one transition, targeting
`credits.aleo/fee`. -/
def Trace.is_fee (t : Trace R A PK ITk) : Bool :=
  match t.transitions with
  | [tr] => tr.program_id = "credits.aleo" && tr.function_name = "fee"
  | _ => false

/-- `Trace::prepare`: computes the inclusion assignments and global
state root through the external `Inclusion` collaborator (its fee and
execution paths are the function parameters, with the storage query
folded into them), then writes both write-once cells.  The pair returned
is (result, trace after the call). -/
def Trace.prepare
    (prepare_fee : Transition → Except String (List (InclusionAssignment R) × R))
    (prepare_execution : List Transition → Except String (List (InclusionAssignment R) × R))
    (t : Trace R A PK ITk) : Except String Unit × Trace R A PK ITk :=
  match (if t.is_fee then
           match t.transitions with
           | tr :: _ => prepare_fee tr
           | [] => .error ("index out of bounds")
         else prepare_execution t.transitions) with
  | .error e => (.error e, t)
  | .ok (inclusion_assignments, global_state_root) =>
    match OnceCell.set t.inclusion_assignments inclusion_assignments with
    | .error _ => (.error ("Failed to set inclusion assignments"), t)
    | .ok cell1 =>
      let t1 := { t with inclusion_assignments := cell1 }
      match OnceCell.set t1.global_state_root global_state_root with
      | .error _ => (.error ("Failed to set global state root"), t1)
      | .ok cell2 => (.ok (), { t1 with global_state_root := cell2 })

/-- `Trace::prepare_async`: identical logic to `prepare`, delegating to
the asynchronous variants of the `Inclusion` collaborator. -/
def Trace.prepare_async
    (prepare_fee_async : Transition → Except String (List (InclusionAssignment R) × R))
    (prepare_execution_async : List Transition → Except String (List (InclusionAssignment R) × R))
    (t : Trace R A PK ITk) : Except String Unit × Trace R A PK ITk :=
  match (if t.is_fee then
           match t.transitions with
           | tr :: _ => prepare_fee_async tr
           | [] => .error ("index out of bounds")
         else prepare_execution_async t.transitions) with
  | .error e => (.error e, t)
  | .ok (inclusion_assignments, global_state_root) =>
    match OnceCell.set t.inclusion_assignments inclusion_assignments with
    | .error _ => (.error ("Failed to set inclusion assignments"), t)
    | .ok cell1 =>
      let t1 := { t with inclusion_assignments := cell1 }
      match OnceCell.set t1.global_state_root global_state_root with
      | .error _ => (.error ("Failed to set global state root"), t1)
      | .ok cell2 => (.ok (), { t1 with global_state_root := cell2 })

/-- The reserved locator of the synthetic state-path inclusion task,
`Locator::from_str("inclusion.aleo/state_path")`. -/
def inclusion_locator : Locator := Locator.mk ("inclusion.aleo") ("state_path")

/-- The per-assignment loop of `Trace::prove_batch`: for each inclusion
assignment, in order, check its embedded root against the argument and
convert it to a circuit assignment (the external, fallible
`to_circuit_assignment`). -/
def batch_inclusions_loop (to_circuit_assignment : InclusionAssignment R → Except String A)
    (global_state_root : R) [DecidableEq R] :
    List (InclusionAssignment R) → Except String (List A)
  | [] => .ok []
  | a :: rest =>
    if global_state_root ≠ a.state_path.global_state_root then
      .error ("Inclusion expected the global state root to be the same across iterations")
    else
      match to_circuit_assignment a with
      | .error e => .error e
      | .ok ca =>
        match batch_inclusions_loop to_circuit_assignment global_state_root rest with
        | .error e => .error e
        | .ok tail => .ok (ca :: tail)

/-- `Trace::prove_batch`: rejects the zero/default state root sentinel
(even with no inclusion assignments), checks every assignment's root,
synthesizes the inclusion task when any assignments exist, and invokes
the Key Batch Engine (`ProvingKey::prove_batch`, the `engine`
parameter, with the rng folded in) exactly once. -/
def Trace.prove_batch [DecidableEq R] [Inhabited R]
    (engine : String → List (Locator × PK × List A) → Except String Pf)
    (to_circuit_assignment : InclusionAssignment R → Except String A)
    (inclusion_proving_key : PK) (locator : String)
    (proving_tasks : List (Locator × PK × List A))
    (inclusion_assignments : List (InclusionAssignment R))
    (global_state_root : R) : Except String (R × Pf) :=
  if global_state_root = (default : R) then
    .error ("Inclusion expected the global state root in the execution to *not* be zero")
  else
    match batch_inclusions_loop to_circuit_assignment global_state_root inclusion_assignments with
    | .error e => .error e
    | .ok batch_inclusions =>
      let proving_tasks :=
        if batch_inclusions.isEmpty then proving_tasks
        else tasksInsertMap inclusion_locator (inclusion_proving_key, batch_inclusions) proving_tasks
      match engine locator proving_tasks with
      | .error e => .error e
      | .ok proof => .ok (global_state_root, proof)

end TraceOps

/-!
Concrete instantiations over the prime field `ZMod 5`, used to evaluate
the embedding on explicit inputs.
-/

instance : Fact (Nat.Prime 5) := ⟨by norm_num⟩

/-- A sponge stream that always yields `1`. -/
def stream1 : Nat → ZMod 5 := fun _ => 1

/-- A sponge stream that always yields `2`. -/
def stream2 : Nat → ZMod 5 := fun _ => 2

/-- A fresh sponge over `stream1`. -/
def sponge1 : Sponge (ZMod 5) := ⟨stream1, 0⟩

/-- A fresh sponge over `stream2`. -/
def sponge2 : Sponge (ZMod 5) := ⟨stream2, 0⟩

/-- A domain builder that always succeeds, with vanishing evaluation
constantly `3` (never a root). -/
def domain_ok : Nat → Option (EvaluationDomain (ZMod 5)) :=
  fun n => some ⟨n, fun _ => 3⟩

/-- A domain builder that always succeeds, with vanishing evaluation
constantly `0` (every challenge is a root). -/
def domain_vanishing : Nat → Option (EvaluationDomain (ZMod 5)) :=
  fun n => some ⟨n, fun _ => 0⟩

/-- A domain builder that always fails. -/
def domain_fail : Nat → Option (EvaluationDomain (ZMod 5)) := fun _ => none

/-- A square circuit descriptor with all counts `1`. -/
def info_unit : CircuitInfo := ⟨1, 1, 1, 1, 1, 1⟩

/-- A non-square circuit descriptor. -/
def info_rect : CircuitInfo := ⟨2, 1, 1, 1, 1, 1⟩

/-- An evaluation domain whose vanishing evaluation is constantly `3`. -/
def dom3 : EvaluationDomain (ZMod 5) := ⟨1, fun _ => 3⟩

/-- An evaluation domain whose vanishing evaluation is constantly `0`. -/
def dom0 : EvaluationDomain (ZMod 5) := ⟨1, fun _ => 0⟩

/-- First-round run on the all-ones stream with two circuits of one
instance each: both the first circuit's fixed combiner and the second
circuit's squeezed combiner come out as the identity. -/
def c2_run : Outcome AHPError (FirstMessage (ZMod 5) × State (ZMod 5) × Sponge (ZMod 5)) :=
  verifier_first_round domain_ok info_unit [(0, 1), (1, 1)] sponge1

/-- The first message of `c2_run`. -/
def c2_msg : FirstMessage (ZMod 5) :=
  match c2_run with
  | .ok (m, _, _) => m
  | _ => ⟨0, 0, 0, []⟩

/-- The state of `c2_run`. -/
def c2_st : State (ZMod 5) :=
  match c2_run with
  | .ok (_, st, _) => st
  | _ => ⟨[], dom3, dom3, dom3, dom3, dom3, none, none, none, none⟩

/-- The final sponge of `c2_run`. -/
def c2_rng : Sponge (ZMod 5) :=
  match c2_run with
  | .ok (_, _, r) => r
  | _ => sponge1

/-- First-round run used by the C7 witness. -/
def c7_run : Outcome AHPError (FirstMessage (ZMod 5) × State (ZMod 5) × Sponge (ZMod 5)) :=
  verifier_first_round domain_ok info_unit [(0, 1)] sponge2

/-- The first message of `c7_run`. -/
def c7_msg : FirstMessage (ZMod 5) :=
  match c7_run with
  | .ok (m, _, _) => m
  | _ => ⟨0, 0, 0, []⟩

/-- The state of `c7_run`. -/
def c7_st : State (ZMod 5) :=
  match c7_run with
  | .ok (_, st, _) => st
  | _ => ⟨[], dom3, dom3, dom3, dom3, dom3, none, none, none, none⟩

/-- The final sponge of `c7_run`. -/
def c7_rng : Sponge (ZMod 5) :=
  match c7_run with
  | .ok (_, _, r) => r
  | _ => sponge2

/-- A state with no round messages recorded, over never-vanishing
domains. -/
def c8_state : State (ZMod 5) :=
  ⟨[], dom3, dom3, dom3, dom3, dom3, none, none, none, none⟩

/-- A state whose second-round message is already recorded. -/
def c8_state2 : State (ZMod 5) :=
  { c8_state with second_round_message := some ⟨4⟩ }

/-- A state with round-messages recorded, like the ones over never-vanishing
domains produced by rounds one and two. -/
def c8_state3 : State (ZMod 5) :=
  { c8_state with first_round_message := some ⟨2, 2, 2, [(0, ⟨1, [1]⟩)]⟩,
                  second_round_message := some ⟨2⟩ }

/-- Full-protocol run used by the C1 witness. -/
def c1_run : Outcome AHPError
    ((FirstMessage (ZMod 5) × SecondMessage (ZMod 5) × ThirdMessage (ZMod 5))
      × State (ZMod 5) × Sponge (ZMod 5)) :=
  full_protocol domain_ok info_unit [(0, 1)] sponge2

/-- The messages of `c1_run`. -/
def c1_ms : FirstMessage (ZMod 5) × SecondMessage (ZMod 5) × ThirdMessage (ZMod 5) :=
  match c1_run with
  | .ok (ms, _, _) => ms
  | _ => (⟨0, 0, 0, []⟩, ⟨0⟩, ⟨0, 0⟩)

/-- The final state of `c1_run`. -/
def c1_st : State (ZMod 5) :=
  match c1_run with
  | .ok (_, st, _) => st
  | _ => c8_state

/-- The final sponge of `c1_run`. -/
def c1_fin : Sponge (ZMod 5) :=
  match c1_run with
  | .ok (_, _, r) => r
  | _ => sponge2

/-- Second-round run used by the C6 witness projections. -/
def c6_run : Outcome AHPError (FirstMessage (ZMod 5) × State (ZMod 5) × Sponge (ZMod 5)) :=
  verifier_first_round domain_ok info_unit [(0, 2), (3, 1)] sponge2

/-- A concrete trace whose two write-once cells are both set. -/
def c5_trace : Trace Nat Nat Nat Unit :=
  ⟨[], [], (), some [], some 5⟩

/-- A concrete locator used by the C10 witness. -/
def c10_loc : Locator := ⟨"prog.aleo", "run"⟩

/-- A concrete transition whose locator is `c10_loc`. -/
def c10_tr : Transition := ⟨"prog.aleo", "run"⟩

/-- A concrete trace holding proving key `7` and one assignment under
`c10_loc`, with both write-once cells unset. -/
def c10_trace : Trace Nat Nat Nat Unit :=
  ⟨[c10_tr], [(c10_loc, 7, [4])], (), none, none⟩

/-- An inclusion accumulator insert that always succeeds. -/
def c10_inclusion_insert : Unit → List Unit → Transition → Except String Unit :=
  fun i _ _ => .ok i

/-- Two concrete inclusion assignments carrying different roots. -/
def c4_ia : List (InclusionAssignment Nat) := [⟨⟨2⟩⟩, ⟨⟨3⟩⟩]

/-- A state whose domains evaluate the vanishing polynomial to `0`
everywhere. -/
def bad_state : State (ZMod 5) :=
  ⟨[], dom0, dom0, dom0, dom0, dom0, none, none, none, none⟩

/-- A concrete second-round run on a message-free state. -/
def sr2 : Outcome AHPError (SecondMessage (ZMod 5) × State (ZMod 5) × Sponge (ZMod 5)) :=
  verifier_second_round c8_state sponge2

/-- The message of `sr2`. -/
def sr2_msg : SecondMessage (ZMod 5) :=
  match sr2 with
  | .ok (m, _, _) => m
  | _ => ⟨0⟩

/-- The state of `sr2`. -/
def sr2_st : State (ZMod 5) :=
  match sr2 with
  | .ok (_, st, _) => st
  | _ => c8_state

/-- The final sponge of `sr2`. -/
def sr2_rng : Sponge (ZMod 5) :=
  match sr2 with
  | .ok (_, _, r) => r
  | _ => sponge2

/-- A concrete third-round run. -/
def sr3 : Outcome AHPError (ThirdMessage (ZMod 5) × State (ZMod 5) × Sponge (ZMod 5)) :=
  verifier_third_round c8_state sponge2

/-- The message of `sr3`. -/
def sr3_msg : ThirdMessage (ZMod 5) :=
  match sr3 with
  | .ok (m, _, _) => m
  | _ => ⟨0, 0⟩

/-- The state of `sr3`. -/
def sr3_st : State (ZMod 5) :=
  match sr3 with
  | .ok (_, st, _) => st
  | _ => c8_state

/-- The final sponge of `sr3`. -/
def sr3_rng : Sponge (ZMod 5) :=
  match sr3 with
  | .ok (_, _, r) => r
  | _ => sponge2

/-- A concrete fourth-round run. -/
def sr4 : Outcome AHPError (State (ZMod 5) × Sponge (ZMod 5)) :=
  verifier_fourth_round c8_state sponge2

/-- The state of `sr4`. -/
def sr4_st : State (ZMod 5) :=
  match sr4 with
  | .ok (st, _) => st
  | _ => c8_state

/-- The final sponge of `sr4`. -/
def sr4_rng : Sponge (ZMod 5) :=
  match sr4 with
  | .ok (_, r) => r
  | _ => sponge2

/-!
Helper lemmas about the sponge and the combiner loop.
-/

section SpongeLemmas

variable {F : Type}

/-- Squeezing advances the position and keeps the stream. -/
theorem squeeze_snd (s : Sponge F) (n : Nat) :
    (s.squeeze_nonnative_field_elements n).2 = ⟨s.stream, s.pos + n⟩ := by
  induction n generalizing s with
  | zero => rfl
  | succ n ih =>
    simp only [Sponge.squeeze_nonnative_field_elements, ih]
    congr 1
    omega

/-- Squeezing `n` elements yields a list of length `n`. -/
theorem squeeze_fst_length (s : Sponge F) (n : Nat) :
    (s.squeeze_nonnative_field_elements n).1.length = n := by
  induction n generalizing s with
  | zero => rfl
  | succ n ih =>
    simp only [Sponge.squeeze_nonnative_field_elements, List.length_cons, ih]

/-- Squeezing one element, explicitly. -/
theorem squeeze_one (s : Sponge F) :
    s.squeeze_nonnative_field_elements 1 =
      ([s.stream s.pos], ⟨s.stream, s.pos + 1⟩) := rfl

/-- Squeezing two elements, explicitly. -/
theorem squeeze_two (s : Sponge F) :
    s.squeeze_nonnative_field_elements 2 =
      ([s.stream s.pos, s.stream (s.pos + 1)], ⟨s.stream, s.pos + 1 + 1⟩) := rfl

/-- Squeezing three elements, explicitly. -/
theorem squeeze_three (s : Sponge F) :
    s.squeeze_nonnative_field_elements 3 =
      ([s.stream s.pos, s.stream (s.pos + 1), s.stream (s.pos + 1 + 1)],
        ⟨s.stream, s.pos + 1 + 1 + 1⟩) := rfl

end SpongeLemmas

section AHPLemmas

variable {F : Type} [Field F] [DecidableEq F]

/-- The combiner loop never returns a typed error. -/
theorem squeeze_batch_combiners_ne_err (needed : Nat) (rng : Sponge F)
    (bs : List (Nat × Nat)) (e : AHPError) :
    squeeze_batch_combiners needed rng bs ≠ .err e := by
  induction bs generalizing needed rng with
  | nil => simp [squeeze_batch_combiners]
  | cons p rest ih =>
    obtain ⟨c, sz⟩ := p
    simp only [squeeze_batch_combiners]
    split
    · simp
    · split
      · simp
      · split
        · simp
        · rename_i heq
          intro hcontra
          simp only [Outcome.err.injEq] at hcontra
          subst hcontra
          exact ih 1 _ heq
        · simp

/-- A batch size of `0` makes the combiner loop panic (the `usize`
underflow of `instances - 1` in a checked build). -/
theorem squeeze_batch_combiners_panicked_of_zero (needed : Nat) (rng : Sponge F)
    (bs : List (Nat × Nat)) (hz : ∃ p ∈ bs, p.2 = 0) :
    squeeze_batch_combiners needed rng bs = .panicked := by
  induction bs generalizing needed rng with
  | nil => simp at hz
  | cons p rest ih =>
    obtain ⟨c, sz⟩ := p
    rcases hz with ⟨q, hq, hq0⟩
    simp only [List.mem_cons] at hq
    simp only [squeeze_batch_combiners]
    rcases hq with rfl | hq
    · have hsz : sz = 0 := hq0
      rw [if_pos hsz]
    · split
      · rfl
      · split
        · rfl
        · rw [ih 1 _ ⟨q, hq, hq0⟩]

/-- When every batch size is positive (and at most one circuit combiner
is requested), the combiner loop does not panic. -/
theorem squeeze_batch_combiners_not_panicked (needed : Nat) (hn : needed ≤ 1)
    (rng : Sponge F) (bs : List (Nat × Nat)) (hpos : ∀ p ∈ bs, 0 < p.2) :
    squeeze_batch_combiners needed rng bs ≠ .panicked := by
  induction bs generalizing needed rng with
  | nil => simp [squeeze_batch_combiners]
  | cons p rest ih =>
    obtain ⟨c, sz⟩ := p
    have hsz : 0 < sz := hpos (c, sz) (by simp)
    have hrest : ∀ p ∈ rest, 0 < p.2 := fun p hp => hpos p (by simp [hp])
    simp only [squeeze_batch_combiners]
    rw [if_neg (by omega)]
    rw [if_neg ?hlen]
    case hlen =>
      intro hlen
      rw [List.length_drop, squeeze_fst_length] at hlen
      omega
    split
    · simp
    · simp
    · rename_i heq
      exact absurd heq (ih 1 (by omega) _ hrest)

/-- When every batch size is positive (and at most one circuit combiner
is requested), the combiner loop succeeds. -/
theorem squeeze_batch_combiners_total (needed : Nat) (hn : needed ≤ 1) (rng : Sponge F)
    (bs : List (Nat × Nat)) (hpos : ∀ p ∈ bs, 0 < p.2) :
    ∃ out rng', squeeze_batch_combiners needed rng bs = .ok (out, rng') := by
  cases h : squeeze_batch_combiners needed rng bs with
  | ok a =>
    obtain ⟨out, rng'⟩ := a
    exact ⟨out, rng', rfl⟩
  | err e => exact absurd h (squeeze_batch_combiners_ne_err needed rng bs e)
  | panicked => exact absurd h (squeeze_batch_combiners_not_panicked needed hn rng bs hpos)

/-- Inversion of a successful combiner loop: lengths, stream and
position accounting, per-entry shape, and the fixed identity combiner
of the first circuit when none was squeezed for it. -/
theorem squeeze_batch_combiners_ok_inv {needed : Nat} {rng : Sponge F}
    {bs : List (Nat × Nat)} {out : List (Nat × BatchCombiners F)} {rng' : Sponge F}
    (h : squeeze_batch_combiners needed rng bs = .ok (out, rng')) :
    out.length = bs.length ∧
    rng'.stream = rng.stream ∧
    (bs = [] → out = [] ∧ rng' = rng) ∧
    (bs ≠ [] → rng'.pos = rng.pos + ((bs.map fun p => p.2 - 1).sum)
      + needed + (bs.length - 1)) ∧
    (∀ pr ∈ out.zip bs, pr.1.1 = pr.2.1 ∧ 0 < pr.2.2 ∧
       pr.1.2.instance_combiners.length = pr.2.2 ∧
       pr.1.2.instance_combiners.head? = some 1) ∧
    (needed = 0 → ∀ p ∈ out.head?, p.2.circuit_combiner = (1 : F)) := by
  induction bs generalizing needed rng out with
  | nil =>
    simp only [squeeze_batch_combiners, Outcome.ok.injEq, Prod.mk.injEq] at h
    obtain ⟨rfl, rfl⟩ := h
    simp
  | cons p rest ih =>
    obtain ⟨c, sz⟩ := p
    simp only [squeeze_batch_combiners] at h
    split at h
    · exact absurd h (by simp)
    · rename_i hsz
      split at h
      · exact absurd h (by simp)
      · rename_i hlen
        split at h
        · rename_i tail rngf hrec
          simp only [Outcome.ok.injEq, Prod.mk.injEq] at h
          obtain ⟨⟨rfl, rfl⟩, rfl⟩ := h
          obtain ⟨ihl, ihs, ihe, ihp, ihz, _⟩ := ih hrec
          have hq2 := squeeze_snd rng (sz - 1 + needed)
          have hs2 : (rng.squeeze_nonnative_field_elements (sz - 1 + needed)).2.stream
              = rng.stream := by rw [hq2]
          have hp2 : (rng.squeeze_nonnative_field_elements (sz - 1 + needed)).2.pos
              = rng.pos + (sz - 1 + needed) := by rw [hq2]
          have hlen1 : (rng.squeeze_nonnative_field_elements (sz - 1 + needed)).1.length
              = sz - 1 + needed := squeeze_fst_length rng _
          refine ⟨by simp [ihl], ?_, ?_, ?_, ?_, ?_⟩
          · rw [ihs, hs2]
          · intro hcontra
            exact absurd hcontra (List.cons_ne_nil _ _)
          · intro _
            simp only [List.map_cons, List.sum_cons, List.length_cons]
            by_cases hr : rest = []
            · obtain ⟨_, rfl⟩ := ihe hr
              subst hr
              simp only [List.length_nil, List.map_nil, List.sum_nil] at *
              omega
            · have hihp := ihp hr
              have hrl : 0 < rest.length := List.length_pos.mpr hr
              omega
          · intro pr hpr
            simp only [List.zip_cons_cons, List.mem_cons] at hpr
            rcases hpr with rfl | hpr
            · refine ⟨rfl, Nat.pos_of_ne_zero hsz, ?_, rfl⟩
              simp only [List.length_cons, List.length_take, hlen1]
              omega
            · exact ihz pr hpr
          · intro hneed p hp
            subst hneed
            simp only [List.head?_cons, Option.mem_def, Option.some.injEq] at hp
            subst hp
            have hdrop : ((rng.squeeze_nonnative_field_elements (sz - 1 + 0)).1.drop
                (sz - 1)).length = 0 := by
              rw [List.length_drop, hlen1]; omega
            have hnil := List.eq_nil_of_length_eq_zero hdrop
            simp only [hnil]
        · exact absurd h (by simp)
        · exact absurd h (by simp)

/-- Inversion of a successful first round: the descriptor is square,
the five domains were built, the first three squeezed elements are
`alpha, eta_b, eta_c`, the combiners come from the loop, `alpha` is not
a vanishing root, and the state is fresh with only the first message
set. -/
theorem verifier_first_round_ok_inv {domain_new : Nat → Option (EvaluationDomain F)}
    {info : CircuitInfo} {bs : List (Nat × Nat)} {rng : Sponge F}
    {msg : FirstMessage F} {st : State F} {rng' : Sponge F}
    (h : verifier_first_round domain_new info bs rng = .ok (msg, st, rng')) :
    info.num_constraints = info.num_variables ∧
    domain_new info.num_constraints = some st.constraint_domain ∧
    domain_new info.num_non_zero_a = some st.non_zero_a_domain ∧
    domain_new info.num_non_zero_b = some st.non_zero_b_domain ∧
    domain_new info.num_non_zero_c = some st.non_zero_c_domain ∧
    domain_new info.num_public_inputs = some st.input_domain ∧
    msg.alpha = rng.stream rng.pos ∧
    msg.eta_b = rng.stream (rng.pos + 1) ∧
    msg.eta_c = rng.stream (rng.pos + 1 + 1) ∧
    squeeze_batch_combiners 0 ⟨rng.stream, rng.pos + 1 + 1 + 1⟩ bs
      = .ok (msg.batch_combiners, rng') ∧
    st.constraint_domain.evaluate_vanishing_polynomial msg.alpha ≠ 0 ∧
    st.batch_sizes = bs ∧
    st.first_round_message = some msg ∧
    st.second_round_message = none ∧
    st.third_round_message = none ∧
    st.gamma = none := by
  rw [verifier_first_round] at h
  split at h
  · exact absurd h (by simp)
  · rename_i hsq
    rw [not_not] at hsq
    split at h
    · exact absurd h (by simp)
    · rename_i cd hcd
      split at h
      · exact absurd h (by simp)
      · rename_i nza hnza
        split at h
        · exact absurd h (by simp)
        · rename_i nzb hnzb
          split at h
          · exact absurd h (by simp)
          · rename_i nzc hnzc
            split at h
            · exact absurd h (by simp)
            · rename_i ind hind
              simp only [squeeze_three] at h
              split at h
              · exact absurd h (by simp)
              · exact absurd h (by simp)
              · rename_i bc rng2 hloop
                split at h
                · exact absurd h (by simp)
                · rename_i hnz
                  simp only [Outcome.ok.injEq, Prod.mk.injEq] at h
                  obtain ⟨rfl, rfl, rfl⟩ := h
                  exact ⟨hsq, hcd, hnza, hnzb, hnzc, hind, rfl, rfl, rfl, hloop,
                    hnz, rfl, rfl, rfl, rfl, rfl⟩

/-- With a square descriptor, a failed domain construction yields the
`PolynomialDegreeTooLarge` (`DomainTooLarge`) error. -/
theorem verifier_first_round_domain_err {domain_new : Nat → Option (EvaluationDomain F)}
    {info : CircuitInfo} {bs : List (Nat × Nat)} {rng : Sponge F}
    (hsq : info.num_constraints = info.num_variables)
    (hfail : domain_new info.num_constraints = none ∨
      domain_new info.num_non_zero_a = none ∨
      domain_new info.num_non_zero_b = none ∨
      domain_new info.num_non_zero_c = none ∨
      domain_new info.num_public_inputs = none) :
    verifier_first_round domain_new info bs rng = .err .PolynomialDegreeTooLarge := by
  rw [verifier_first_round, if_neg (not_not_intro hsq)]
  cases hc : domain_new info.num_constraints with
  | none => rfl
  | some cd =>
  cases ha : domain_new info.num_non_zero_a with
  | none => rfl
  | some nza =>
  cases hb : domain_new info.num_non_zero_b with
  | none => rfl
  | some nzb =>
  cases hcc : domain_new info.num_non_zero_c with
  | none => rfl
  | some nzc =>
  cases hi : domain_new info.num_public_inputs with
  | none => rfl
  | some ind =>
  simp [hc, ha, hb, hcc, hi] at hfail

/-- With a square descriptor, successfully built domains, positive
batch sizes and a non-root `alpha`, the first round succeeds. -/
theorem verifier_first_round_ok_of {domain_new : Nat → Option (EvaluationDomain F)}
    {info : CircuitInfo} {bs : List (Nat × Nat)} {rng : Sponge F}
    {cd nza nzb nzc ind : EvaluationDomain F}
    (hsq : info.num_constraints = info.num_variables)
    (h1 : domain_new info.num_constraints = some cd)
    (h2 : domain_new info.num_non_zero_a = some nza)
    (h3 : domain_new info.num_non_zero_b = some nzb)
    (h4 : domain_new info.num_non_zero_c = some nzc)
    (h5 : domain_new info.num_public_inputs = some ind)
    (hpos : ∀ p ∈ bs, 0 < p.2)
    (hvan : cd.evaluate_vanishing_polynomial (rng.stream rng.pos) ≠ 0) :
    (verifier_first_round domain_new info bs rng).isOk = true := by
  obtain ⟨out, rng2, hloop⟩ := squeeze_batch_combiners_total 0 (by omega)
    ⟨rng.stream, rng.pos + 1 + 1 + 1⟩ bs hpos
  rw [verifier_first_round, if_neg (not_not_intro hsq), h1, h2, h3, h4, h5]
  simp only [squeeze_three, hloop, if_neg hvan]
  rfl

/-- With a square descriptor and successfully built domains, a zero
batch size makes the first round panic (the `usize` underflow). -/
theorem verifier_first_round_panicked_of_zero_size
    {domain_new : Nat → Option (EvaluationDomain F)}
    {info : CircuitInfo} {bs : List (Nat × Nat)} {rng : Sponge F}
    {cd nza nzb nzc ind : EvaluationDomain F}
    (hsq : info.num_constraints = info.num_variables)
    (h1 : domain_new info.num_constraints = some cd)
    (h2 : domain_new info.num_non_zero_a = some nza)
    (h3 : domain_new info.num_non_zero_b = some nzb)
    (h4 : domain_new info.num_non_zero_c = some nzc)
    (h5 : domain_new info.num_public_inputs = some ind)
    (hz : ∃ p ∈ bs, p.2 = 0) :
    verifier_first_round domain_new info bs rng = .panicked := by
  rw [verifier_first_round, if_neg (not_not_intro hsq), h1, h2, h3, h4, h5]
  simp only [squeeze_three,
    squeeze_batch_combiners_panicked_of_zero 0 ⟨rng.stream, rng.pos + 1 + 1 + 1⟩ bs hz]

/-- With a square descriptor, successfully built domains and positive
batch sizes, an `alpha` that is a vanishing root makes the first round
panic (the `assert!`), rather than return an error. -/
theorem verifier_first_round_panicked_of_vanishing
    {domain_new : Nat → Option (EvaluationDomain F)}
    {info : CircuitInfo} {bs : List (Nat × Nat)} {rng : Sponge F}
    {cd nza nzb nzc ind : EvaluationDomain F}
    (hsq : info.num_constraints = info.num_variables)
    (h1 : domain_new info.num_constraints = some cd)
    (h2 : domain_new info.num_non_zero_a = some nza)
    (h3 : domain_new info.num_non_zero_b = some nzb)
    (h4 : domain_new info.num_non_zero_c = some nzc)
    (h5 : domain_new info.num_public_inputs = some ind)
    (hpos : ∀ p ∈ bs, 0 < p.2)
    (hvan : cd.evaluate_vanishing_polynomial (rng.stream rng.pos) = 0) :
    verifier_first_round domain_new info bs rng = .panicked := by
  obtain ⟨out, rng2, hloop⟩ := squeeze_batch_combiners_total 0 (by omega)
    ⟨rng.stream, rng.pos + 1 + 1 + 1⟩ bs hpos
  rw [verifier_first_round, if_neg (not_not_intro hsq), h1, h2, h3, h4, h5]
  simp only [squeeze_three, hloop, if_pos hvan]

/-- Inversion of a successful second round: `beta` is the next squeezed
element, it is not a vanishing root, and only the second-round message
changes. -/
theorem verifier_second_round_ok_inv {st : State F} {rng : Sponge F}
    {msg : SecondMessage F} {st' : State F} {rng' : Sponge F}
    (h : verifier_second_round st rng = .ok (msg, st', rng')) :
    msg.beta = rng.stream rng.pos ∧
    st.constraint_domain.evaluate_vanishing_polynomial msg.beta ≠ 0 ∧
    st' = { st with second_round_message := some msg } ∧
    rng' = ⟨rng.stream, rng.pos + 1⟩ := by
  simp only [verifier_second_round, squeeze_one] at h
  split at h
  · exact absurd h (by simp)
  · rename_i hnz
    simp only [Outcome.ok.injEq, Prod.mk.injEq] at h
    obtain ⟨rfl, rfl, rfl⟩ := h
    exact ⟨rfl, hnz, rfl, rfl⟩

/-- A squeezed `beta` that is a vanishing root makes the second round
panic (the `assert!`), rather than return an error. -/
theorem verifier_second_round_panicked {st : State F} {rng : Sponge F}
    (h0 : st.constraint_domain.evaluate_vanishing_polynomial (rng.stream rng.pos) = 0) :
    verifier_second_round st rng = .panicked := by
  simp only [verifier_second_round, squeeze_one]
  rw [if_pos h0]

/-- The third round always succeeds, squeezing `r_b, r_c` and setting
only the third-round message. -/
theorem verifier_third_round_eq (st : State F) (rng : Sponge F) :
    verifier_third_round st rng =
      .ok (⟨rng.stream rng.pos, rng.stream (rng.pos + 1)⟩,
        { st with third_round_message := some ⟨rng.stream rng.pos, rng.stream (rng.pos + 1)⟩ },
        ⟨rng.stream, rng.pos + 1 + 1⟩) := by
  simp only [verifier_third_round, squeeze_two]

/-- The fourth round always succeeds, squeezing `gamma` and recording
only it. -/
theorem verifier_fourth_round_eq (st : State F) (rng : Sponge F) :
    verifier_fourth_round st rng =
      .ok ({ st with gamma := some (rng.stream rng.pos) }, ⟨rng.stream, rng.pos + 1⟩) := by
  simp only [verifier_fourth_round, squeeze_one]

/-- Claim C1: two invocations of the full four-round verifier protocol
with the same circuit descriptor, the same batch composition and
transcripts in identical states produce equal round messages, equal
final states, and extract identical challenge sequences. -/
theorem claim_C1_determinism (domain_new : Nat → Option (EvaluationDomain F))
    (info : CircuitInfo) (bs : List (Nat × Nat)) (t1 t2 : Sponge F)
    (h : t1 = t2) :
    full_protocol domain_new info bs t1 = full_protocol domain_new info bs t2 ∧
    (∀ ms1 st1 fin1 ms2 st2 fin2,
      full_protocol domain_new info bs t1 = .ok (ms1, st1, fin1) →
      full_protocol domain_new info bs t2 = .ok (ms2, st2, fin2) →
      ms1 = ms2 ∧ st1 = st2 ∧
        Sponge.extracted t1 fin1 = Sponge.extracted t2 fin2) := by
  subst h
  refine ⟨rfl, ?_⟩
  intro ms1 st1 fin1 ms2 st2 fin2 h1 h2
  rw [h1] at h2
  simp only [Outcome.ok.injEq, Prod.mk.injEq] at h2
  obtain ⟨rfl, rfl, rfl⟩ := h2
  exact ⟨rfl, rfl, rfl⟩

/-- Witness for C1 at a concrete instantiation over `ZMod 5`. -/
theorem claim_C1_determinism_witness :
    (sponge2 = sponge2) ∧
    c1_run = .ok (c1_ms, c1_st, c1_fin) ∧
    (c1_ms = c1_ms ∧ c1_st = c1_st ∧
      Sponge.extracted sponge2 c1_fin = Sponge.extracted sponge2 c1_fin) :=
  ⟨rfl, rfl,
    (claim_C1_determinism domain_ok info_unit [(0, 1)] sponge2 sponge2 rfl).2
      c1_ms c1_st c1_fin c1_ms c1_st c1_fin rfl rfl⟩

/-- Claim C2 counterexample: on the all-ones transcript with two
circuits of one instance each, the first round succeeds and both the
first circuit's fixed combiner and the second circuit's squeezed
combiner equal the identity, so it is not the case that exactly one
circuit in the resulting map has identity circuit-combiner. -/
theorem claim_C2_counterexample :
    c2_run = .ok (c2_msg, c2_st, c2_rng) ∧
    ¬ ((c2_msg.batch_combiners.filter fun p => p.2.circuit_combiner = 1).length = 1) ∧
    (c2_msg.batch_combiners.filter fun p => p.2.circuit_combiner = 1).length = 2 :=
  ⟨rfl, by decide, by decide⟩

/-- Claim C2 (amended): a successful first round squeezes exactly
`alpha, eta_b, eta_c` first, then per circuit in order
`instance_count - 1` instance combiners plus one circuit combiner for
every circuit after the first (total position accounting); every
circuit's instance-combiner list starts with the identity and has one
entry per instance; the first circuit's circuit-combiner is the
identity; and exactly one circuit has identity circuit-combiner
provided no squeezed circuit-combiner (of a circuit after the first)
equals the identity. -/
theorem claim_C2_amended {domain_new : Nat → Option (EvaluationDomain F)}
    {info : CircuitInfo} {bs : List (Nat × Nat)} {rng : Sponge F}
    {msg : FirstMessage F} {st : State F} {rng' : Sponge F}
    (h : verifier_first_round domain_new info bs rng = .ok (msg, st, rng')) :
    msg.alpha = rng.stream rng.pos ∧
    msg.eta_b = rng.stream (rng.pos + 1) ∧
    msg.eta_c = rng.stream (rng.pos + 2) ∧
    rng'.stream = rng.stream ∧
    rng'.pos = rng.pos + 3 + ((bs.map fun p => p.2 - 1).sum) + (bs.length - 1) ∧
    msg.batch_combiners.length = bs.length ∧
    (∀ pr ∈ msg.batch_combiners.zip bs, pr.1.1 = pr.2.1 ∧ 0 < pr.2.2 ∧
       pr.1.2.instance_combiners.length = pr.2.2 ∧
       pr.1.2.instance_combiners.head? = some 1) ∧
    (∀ p ∈ msg.batch_combiners.head?, p.2.circuit_combiner = (1 : F)) ∧
    (bs ≠ [] →
      (((msg.batch_combiners.filter fun p => p.2.circuit_combiner = 1).length = 1) ↔
        ∀ p ∈ msg.batch_combiners.tail, p.2.circuit_combiner ≠ (1 : F))) := by
  obtain ⟨hsq, hcd, hnza, hnzb, hnzc, hind, ha, hb, hc, hloop, hnz, hbs, h1m, h2m, h3m, hg⟩ :=
    verifier_first_round_ok_inv h
  obtain ⟨hl, hs, he, hp, hzip, hhead⟩ := squeeze_batch_combiners_ok_inv hloop
  have hp3 : (Sponge.mk rng.stream (rng.pos + 1 + 1 + 1)).pos = rng.pos + 3 := rfl
  refine ⟨ha, hb, hc, hs, ?_, hl, hzip, hhead rfl, ?_⟩
  · by_cases hbe : bs = []
    · obtain ⟨hout, hrng⟩ := he hbe
      subst hbe
      have hpos3 : rng'.pos = rng.pos + 3 := by rw [hrng]
      simp only [List.map_nil, List.sum_nil, List.length_nil, hpos3]
      omega
    · have hpp := hp hbe
      rw [hp3] at hpp
      have hbl : 0 < bs.length := List.length_pos.mpr hbe
      omega
  · intro hbe
    have hbl : 0 < bs.length := List.length_pos.mpr hbe
    obtain ⟨p0, rest, hout⟩ : ∃ p0 rest, msg.batch_combiners = p0 :: rest := by
      cases hmb : msg.batch_combiners with
      | nil =>
        rw [hmb] at hl
        simp only [List.length_nil] at hl
        omega
      | cons a l => exact ⟨a, l, rfl⟩
    have hp0 : p0.2.circuit_combiner = (1 : F) := by
      refine hhead rfl p0 ?_
      rw [hout]
      rfl
    rw [hout]
    rw [List.filter_cons_of_pos (by simp [hp0])]
    simp only [List.length_cons, List.tail_cons]
    constructor
    · intro h1 q hq hq1
      have hz : (rest.filter fun p => p.2.circuit_combiner = (1 : F)).length = 0 := by
        omega
      have hmem : q ∈ rest.filter fun p => p.2.circuit_combiner = (1 : F) :=
        List.mem_filter.mpr ⟨hq, by simp [hq1]⟩
      rw [List.eq_nil_of_length_eq_zero hz] at hmem
      simp at hmem
    · intro hall
      have hz : (rest.filter fun p => p.2.circuit_combiner = (1 : F)) = [] :=
        List.filter_eq_nil_iff.mpr fun q hq => by simp [hall q hq]
      rw [hz]
      rfl

/-- Witness for C2 (amended) at a concrete instantiation over
`ZMod 5`. -/
theorem claim_C2_amended_witness :
    verifier_first_round domain_ok info_unit [(0, 1), (1, 1)] sponge1
      = .ok (c2_msg, c2_st, c2_rng) ∧
    c2_msg.alpha = sponge1.stream sponge1.pos ∧
    (∀ p ∈ c2_msg.batch_combiners.head?, p.2.circuit_combiner = (1 : ZMod 5)) :=
  ⟨rfl,
    (@claim_C2_amended (ZMod 5) _ _ domain_ok info_unit [(0, 1), (1, 1)] sponge1
      c2_msg c2_st c2_rng rfl).1,
    (@claim_C2_amended (ZMod 5) _ _ domain_ok info_unit [(0, 1), (1, 1)] sponge1
      c2_msg c2_st c2_rng rfl).2.2.2.2.2.2.2.1⟩

/-- Claim C6 counterexample: a square descriptor for which all five
domain constructions succeed, yet the first round does not succeed — it
panics on the vanishing-root assertion, with no typed error returned. -/
theorem claim_C6_counterexample :
    info_unit.num_constraints = info_unit.num_variables ∧
    (domain_vanishing info_unit.num_constraints).isSome = true ∧
    (domain_vanishing info_unit.num_non_zero_a).isSome = true ∧
    (domain_vanishing info_unit.num_non_zero_b).isSome = true ∧
    (domain_vanishing info_unit.num_non_zero_c).isSome = true ∧
    (domain_vanishing info_unit.num_public_inputs).isSome = true ∧
    verifier_first_round domain_vanishing info_unit [(0, 1)] sponge2 = .panicked ∧
    (verifier_first_round domain_vanishing info_unit [(0, 1)] sponge2).isOk = false :=
  ⟨rfl, rfl, rfl, rfl, rfl, rfl, rfl, rfl⟩

/-- Claim C6 (amended): provided every batch size is positive and the
squeezed `alpha` is not a vanishing root of the constraint domain, the
first round returns `NonSquareMatrix` iff the descriptor is not square,
and for square descriptors it succeeds iff all five domain
constructions succeed, returning `PolynomialDegreeTooLarge`
(`DomainTooLarge`) when one fails. -/
theorem claim_C6_amended {domain_new : Nat → Option (EvaluationDomain F)}
    {info : CircuitInfo} {bs : List (Nat × Nat)} {rng : Sponge F}
    (hpos : ∀ p ∈ bs, 0 < p.2)
    (hvan : ∀ d, domain_new info.num_constraints = some d →
      d.evaluate_vanishing_polynomial (rng.stream rng.pos) ≠ 0) :
    (verifier_first_round domain_new info bs rng = .err .NonSquareMatrix ↔
      info.num_constraints ≠ info.num_variables) ∧
    (info.num_constraints = info.num_variables →
      (((verifier_first_round domain_new info bs rng).isOk = true) ↔
        ((domain_new info.num_constraints).isSome = true ∧
         (domain_new info.num_non_zero_a).isSome = true ∧
         (domain_new info.num_non_zero_b).isSome = true ∧
         (domain_new info.num_non_zero_c).isSome = true ∧
         (domain_new info.num_public_inputs).isSome = true)) ∧
      (¬ ((domain_new info.num_constraints).isSome = true ∧
         (domain_new info.num_non_zero_a).isSome = true ∧
         (domain_new info.num_non_zero_b).isSome = true ∧
         (domain_new info.num_non_zero_c).isSome = true ∧
         (domain_new info.num_public_inputs).isSome = true) →
        verifier_first_round domain_new info bs rng = .err .PolynomialDegreeTooLarge)) := by
  have hok_of_all : info.num_constraints = info.num_variables →
      (domain_new info.num_constraints).isSome = true →
      (domain_new info.num_non_zero_a).isSome = true →
      (domain_new info.num_non_zero_b).isSome = true →
      (domain_new info.num_non_zero_c).isSome = true →
      (domain_new info.num_public_inputs).isSome = true →
      (verifier_first_round domain_new info bs rng).isOk = true := by
    intro hsq i1 i2 i3 i4 i5
    obtain ⟨cd, h1⟩ := Option.isSome_iff_exists.mp i1
    obtain ⟨nza, h2⟩ := Option.isSome_iff_exists.mp i2
    obtain ⟨nzb, h3⟩ := Option.isSome_iff_exists.mp i3
    obtain ⟨nzc, h4⟩ := Option.isSome_iff_exists.mp i4
    obtain ⟨ind, h5⟩ := Option.isSome_iff_exists.mp i5
    exact verifier_first_round_ok_of hsq h1 h2 h3 h4 h5 hpos (hvan cd h1)
  have herr_of_fail : info.num_constraints = info.num_variables →
      ¬ ((domain_new info.num_constraints).isSome = true ∧
         (domain_new info.num_non_zero_a).isSome = true ∧
         (domain_new info.num_non_zero_b).isSome = true ∧
         (domain_new info.num_non_zero_c).isSome = true ∧
         (domain_new info.num_public_inputs).isSome = true) →
      verifier_first_round domain_new info bs rng = .err .PolynomialDegreeTooLarge := by
    intro hsq hnall
    apply verifier_first_round_domain_err hsq
    by_contra hcon
    push_neg at hcon
    obtain ⟨hc, ha, hb, hcc, hi⟩ := hcon
    exact hnall ⟨Option.isSome_iff_ne_none.mpr hc, Option.isSome_iff_ne_none.mpr ha,
      Option.isSome_iff_ne_none.mpr hb, Option.isSome_iff_ne_none.mpr hcc,
      Option.isSome_iff_ne_none.mpr hi⟩
  refine ⟨?_, ?_⟩
  · constructor
    · intro herr
      by_contra hsq
      by_cases hall : ((domain_new info.num_constraints).isSome = true ∧
          (domain_new info.num_non_zero_a).isSome = true ∧
          (domain_new info.num_non_zero_b).isSome = true ∧
          (domain_new info.num_non_zero_c).isSome = true ∧
          (domain_new info.num_public_inputs).isSome = true)
      · obtain ⟨i1, i2, i3, i4, i5⟩ := hall
        have hok := hok_of_all hsq i1 i2 i3 i4 i5
        rw [herr] at hok
        simp [Outcome.isOk] at hok
      · have := herr_of_fail hsq hall
        rw [herr] at this
        simp at this
    · intro hne
      rw [verifier_first_round, if_pos hne]
  · intro hsq
    refine ⟨⟨?_, fun hall => hok_of_all hsq hall.1 hall.2.1 hall.2.2.1 hall.2.2.2.1
      hall.2.2.2.2⟩, herr_of_fail hsq⟩
    intro hok
    by_contra hnall
    have := herr_of_fail hsq hnall
    rw [this] at hok
    simp [Outcome.isOk] at hok

/-- Witness for C6 (amended) at a concrete instantiation over
`ZMod 5`. -/
theorem claim_C6_amended_witness :
    (∀ p ∈ ([(0, 2), (3, 1)] : List (Nat × Nat)), 0 < p.2) ∧
    (∀ d, domain_ok info_unit.num_constraints = some d →
      d.evaluate_vanishing_polynomial (sponge2.stream sponge2.pos) ≠ 0) ∧
    (verifier_first_round domain_ok info_unit [(0, 2), (3, 1)] sponge2).isOk = true := by
  have hpos : ∀ p ∈ ([(0, 2), (3, 1)] : List (Nat × Nat)), 0 < p.2 := by decide
  have hvan : ∀ d, domain_ok info_unit.num_constraints = some d →
      d.evaluate_vanishing_polynomial (sponge2.stream sponge2.pos) ≠ 0 := by
    intro d hd
    simp only [domain_ok, Option.some.injEq] at hd
    subst hd
    decide
  exact ⟨hpos, hvan,
    ((claim_C6_amended hpos hvan).2 rfl).1.mpr ⟨rfl, rfl, rfl, rfl, rfl⟩⟩

/-- Claim C7: in round one, the success path is reachable only when the
vanishing polynomial does not vanish at `alpha`, and a vanishing
`alpha` is a panic (hard abort), not a returned error; likewise in
round two for `beta`. -/
theorem claim_C7_nonroot (domain_new : Nat → Option (EvaluationDomain F))
    (info : CircuitInfo) (bs : List (Nat × Nat)) (rng : Sponge F)
    (st0 : State F) (rng0 : Sponge F) :
    (∀ msg st' rng', verifier_first_round domain_new info bs rng = .ok (msg, st', rng') →
      st'.constraint_domain.evaluate_vanishing_polynomial msg.alpha ≠ 0) ∧
    (∀ cd nza nzb nzc ind : EvaluationDomain F,
      info.num_constraints = info.num_variables →
      domain_new info.num_constraints = some cd →
      domain_new info.num_non_zero_a = some nza →
      domain_new info.num_non_zero_b = some nzb →
      domain_new info.num_non_zero_c = some nzc →
      domain_new info.num_public_inputs = some ind →
      (∀ p ∈ bs, 0 < p.2) →
      cd.evaluate_vanishing_polynomial (rng.stream rng.pos) = 0 →
      verifier_first_round domain_new info bs rng = .panicked ∧
        ∀ e, verifier_first_round domain_new info bs rng ≠ .err e) ∧
    (∀ msg st' rng', verifier_second_round st0 rng0 = .ok (msg, st', rng') →
      st0.constraint_domain.evaluate_vanishing_polynomial msg.beta ≠ 0) ∧
    (st0.constraint_domain.evaluate_vanishing_polynomial (rng0.stream rng0.pos) = 0 →
      verifier_second_round st0 rng0 = .panicked ∧
        ∀ e, verifier_second_round st0 rng0 ≠ .err e) := by
  refine ⟨?_, ?_, ?_, ?_⟩
  · intro msg st' rng' h
    exact (verifier_first_round_ok_inv h).2.2.2.2.2.2.2.2.2.2.1
  · intro cd nza nzb nzc ind hsq h1 h2 h3 h4 h5 hpos hv
    have hp := verifier_first_round_panicked_of_vanishing hsq h1 h2 h3 h4 h5 hpos hv
    refine ⟨hp, fun e hcon => ?_⟩
    rw [hp] at hcon
    exact absurd hcon (by simp)
  · intro msg st' rng' h
    exact (verifier_second_round_ok_inv h).2.1
  · intro hv
    have hp := verifier_second_round_panicked hv
    refine ⟨hp, fun e hcon => ?_⟩
    rw [hp] at hcon
    exact absurd hcon (by simp)

/-- Witness for C7 at concrete instantiations over `ZMod 5`. -/
theorem claim_C7_nonroot_witness :
    (c7_run = .ok (c7_msg, c7_st, c7_rng) ∧
      c7_st.constraint_domain.evaluate_vanishing_polynomial c7_msg.alpha ≠ 0) ∧
    (verifier_first_round domain_vanishing info_unit [(0, 1)] sponge2 = .panicked) ∧
    (sr2 = .ok (sr2_msg, sr2_st, sr2_rng) ∧
      c8_state.constraint_domain.evaluate_vanishing_polynomial sr2_msg.beta ≠ 0) ∧
    (bad_state.constraint_domain.evaluate_vanishing_polynomial
        (sponge2.stream sponge2.pos) = 0 ∧
      verifier_second_round bad_state sponge2 = .panicked) :=
  ⟨⟨rfl, (claim_C7_nonroot domain_ok info_unit [(0, 1)] sponge2 c8_state sponge2).1
      c7_msg c7_st c7_rng rfl⟩,
   ((claim_C7_nonroot domain_vanishing info_unit [(0, 1)] sponge2 c8_state sponge2).2.1
      ⟨1, fun _ => 0⟩ ⟨1, fun _ => 0⟩ ⟨1, fun _ => 0⟩ ⟨1, fun _ => 0⟩ ⟨1, fun _ => 0⟩
      rfl rfl rfl rfl rfl rfl (by decide) rfl).1,
   ⟨rfl, (claim_C7_nonroot domain_ok info_unit [(0, 1)] sponge2 c8_state sponge2).2.2.1
      sr2_msg sr2_st sr2_rng rfl⟩,
   ⟨rfl, ((claim_C7_nonroot domain_ok info_unit [(0, 1)] sponge2 bad_state sponge2).2.2.2
      rfl).1⟩⟩

/-- Claim C8 counterexample: the rounds do not require earlier rounds
to have completed — the second and third rounds succeed on a state with
no first-round message — and an already-set second-round message is
overwritten by calling the second round again. -/
theorem claim_C8_counterexample :
    c8_state.first_round_message = none ∧
    (verifier_second_round c8_state sponge2).isOk = true ∧
    c8_state.second_round_message = none ∧
    (verifier_third_round c8_state sponge2).isOk = true ∧
    c8_state2.second_round_message = some ⟨4⟩ ∧
    (match verifier_second_round c8_state2 sponge2 with
     | .ok (_, st, _) => st.second_round_message
     | _ => none) = some ⟨2⟩ ∧
    (⟨4⟩ : SecondMessage (ZMod 5)) ≠ ⟨2⟩ :=
  ⟨rfl, rfl, rfl, rfl, rfl, rfl, by decide⟩

/-- Claim C8 (amended): the first round produces a state with only the
first-round message set; each later round sets exactly its own
message/challenge field and leaves every other field unchanged;
threading a first-round state through rounds 2–4 therefore sets each
field exactly once, but the rounds themselves do not check that prior
rounds completed. -/
theorem claim_C8_amended (domain_new : Nat → Option (EvaluationDomain F))
    (info : CircuitInfo) (bs : List (Nat × Nat)) (rng : Sponge F)
    (st1 st2 st3 : State F) (rng1 rng2 rng3 : Sponge F) :
    (∀ msg st' r', verifier_first_round domain_new info bs rng = .ok (msg, st', r') →
       st'.first_round_message = some msg ∧ st'.second_round_message = none ∧
       st'.third_round_message = none ∧ st'.gamma = none) ∧
    (∀ msg st' r', verifier_second_round st1 rng1 = .ok (msg, st', r') →
       st' = { st1 with second_round_message := some msg }) ∧
    (∀ msg st' r', verifier_third_round st2 rng2 = .ok (msg, st', r') →
       st' = { st2 with third_round_message := some msg }) ∧
    (∀ st' r', verifier_fourth_round st3 rng3 = .ok (st', r') →
       st' = { st3 with gamma := some (rng3.stream rng3.pos) }) := by
  refine ⟨?_, ?_, ?_, ?_⟩
  · intro msg st' r' h
    obtain ⟨-, -, -, -, -, -, -, -, -, -, -, -, h13, h14, h15, h16⟩ :=
      verifier_first_round_ok_inv h
    exact ⟨h13, h14, h15, h16⟩
  · intro msg st' r' h
    exact (verifier_second_round_ok_inv h).2.2.1
  · intro msg st' r' h
    rw [verifier_third_round_eq] at h
    simp only [Outcome.ok.injEq, Prod.mk.injEq] at h
    obtain ⟨rfl, rfl, rfl⟩ := h
    rfl
  · intro st' r' h
    rw [verifier_fourth_round_eq] at h
    simp only [Outcome.ok.injEq, Prod.mk.injEq] at h
    obtain ⟨rfl, rfl⟩ := h
    rfl

/-- Witness for C8 (amended) at concrete instantiations over
`ZMod 5`. -/
theorem claim_C8_amended_witness :
    (c7_run = .ok (c7_msg, c7_st, c7_rng) ∧ c7_st.first_round_message = some c7_msg) ∧
    (sr2 = .ok (sr2_msg, sr2_st, sr2_rng) ∧
      sr2_st = { c8_state with second_round_message := some sr2_msg }) ∧
    (sr3 = .ok (sr3_msg, sr3_st, sr3_rng) ∧
      sr3_st = { c8_state with third_round_message := some sr3_msg }) ∧
    (sr4 = .ok (sr4_st, sr4_rng) ∧
      sr4_st = { c8_state with gamma := some (sponge2.stream sponge2.pos) }) :=
  ⟨⟨rfl, ((claim_C8_amended domain_ok info_unit [(0, 1)] sponge2 c8_state c8_state
      c8_state sponge2 sponge2 sponge2).1 c7_msg c7_st c7_rng rfl).1⟩,
   ⟨rfl, (claim_C8_amended domain_ok info_unit [(0, 1)] sponge2 c8_state c8_state
      c8_state sponge2 sponge2 sponge2).2.1 sr2_msg sr2_st sr2_rng rfl⟩,
   ⟨rfl, (claim_C8_amended domain_ok info_unit [(0, 1)] sponge2 c8_state c8_state
      c8_state sponge2 sponge2 sponge2).2.2.1 sr3_msg sr3_st sr3_rng rfl⟩,
   ⟨rfl, (claim_C8_amended domain_ok info_unit [(0, 1)] sponge2 c8_state c8_state
      c8_state sponge2 sponge2 sponge2).2.2.2 sr4_st sr4_rng rfl⟩⟩

/-- Claim C9: a batch size of `0` makes the first round panic — the
unsigned `instances - 1` underflows in a checked build — rather than
return a typed error, so round one is total only under the unstated
precondition that every batch size is positive. -/
theorem claim_C9_underflow {domain_new : Nat → Option (EvaluationDomain F)}
    {info : CircuitInfo} {bs : List (Nat × Nat)} {rng : Sponge F}
    {cd nza nzb nzc ind : EvaluationDomain F} (c : Nat)
    (hsq : info.num_constraints = info.num_variables)
    (h1 : domain_new info.num_constraints = some cd)
    (h2 : domain_new info.num_non_zero_a = some nza)
    (h3 : domain_new info.num_non_zero_b = some nzb)
    (h4 : domain_new info.num_non_zero_c = some nzc)
    (h5 : domain_new info.num_public_inputs = some ind)
    (hz : (c, 0) ∈ bs) :
    verifier_first_round domain_new info bs rng = .panicked ∧
    ∀ e, verifier_first_round domain_new info bs rng ≠ .err e := by
  have hp : verifier_first_round domain_new info bs rng = .panicked :=
    verifier_first_round_panicked_of_zero_size hsq h1 h2 h3 h4 h5 ⟨(c, 0), hz, rfl⟩
  refine ⟨hp, fun e hcon => ?_⟩
  rw [hp] at hcon
  exact absurd hcon (by simp)

/-- Witness for C9 at a concrete instantiation over `ZMod 5`. -/
theorem claim_C9_underflow_witness :
    ((7, 0) ∈ ([(7, 0)] : List (Nat × Nat))) ∧
    verifier_first_round domain_ok info_unit [(7, 0)] sponge2 = .panicked :=
  ⟨by decide,
    (claim_C9_underflow 7 rfl rfl rfl rfl rfl rfl (by decide)).1⟩

end AHPLemmas

/-!
Lemmas and claims about the batch trace.
-/

section TraceLemmas

variable {R A PK ITk Pf InputID : Type}

/-- A root mismatch anywhere in the list prevents the inclusion loop
from succeeding. -/
theorem batch_inclusions_loop_not_ok [DecidableEq R]
    (tc : InclusionAssignment R → Except String A) (g : R)
    {l : List (InclusionAssignment R)}
    (hm : ∃ a ∈ l, a.state_path.global_state_root ≠ g) :
    ∀ res, batch_inclusions_loop tc g l ≠ .ok res := by
  induction l with
  | nil => simp at hm
  | cons b rest ih =>
    intro res
    obtain ⟨a, hal, hane⟩ := hm
    simp only [List.mem_cons] at hal
    simp only [batch_inclusions_loop]
    split
    · simp
    · rename_i hgb
      have hbg : b.state_path.global_state_root = g := by
        by_contra hcon
        exact hgb fun hx => hcon hx.symm
      have hat : a ∈ rest := by
        rcases hal with rfl | hat
        · exact absurd hbg hane
        · exact hat
      cases htc : tc b with
      | error e => simp
      | ok cb =>
        cases hrec : batch_inclusions_loop tc g rest with
        | error e => simp
        | ok tail => exact absurd hrec (ih ⟨a, hat, hane⟩ tail)

/-- When every conversion succeeds, a root mismatch makes the inclusion
loop fail with the consistency message. -/
theorem batch_inclusions_loop_mismatch_msg [DecidableEq R]
    (tc : InclusionAssignment R → Except String A) (g : R)
    {l : List (InclusionAssignment R)}
    (hconv : ∀ b ∈ l, ∃ cb, tc b = Except.ok cb)
    (hm : ∃ a ∈ l, a.state_path.global_state_root ≠ g) :
    batch_inclusions_loop tc g l =
      .error ("Inclusion expected the global state root to be the same across iterations") := by
  induction l with
  | nil => simp at hm
  | cons b rest ih =>
    obtain ⟨a, hal, hane⟩ := hm
    simp only [List.mem_cons] at hal
    simp only [batch_inclusions_loop]
    split
    · rfl
    · rename_i hgb
      have hbg : b.state_path.global_state_root = g := by
        by_contra hcon
        exact hgb fun hx => hcon hx.symm
      have hat : a ∈ rest := by
        rcases hal with rfl | hat
        · exact absurd hbg hane
        · exact hat
      obtain ⟨cb, hcb⟩ := hconv b (by simp)
      rw [hcb]
      rw [ih (fun q hq => hconv q (by simp [hq])) ⟨a, hat, hane⟩]

/-- Claim C3: with the zero/default state-root sentinel, `prove_batch`
fails with the zero-root error — also with an empty inclusion list —
and its result does not depend on the Key Batch Engine, which is
therefore never consulted. -/
theorem claim_C3_zero_root [DecidableEq R] [Inhabited R]
    (engine engine' : String → List (Locator × PK × List A) → Except String Pf)
    (to_circuit_assignment : InclusionAssignment R → Except String A)
    (inclusion_proving_key : PK) (locator : String)
    (proving_tasks : List (Locator × PK × List A))
    (inclusion_assignments : List (InclusionAssignment R)) :
    Trace.prove_batch engine to_circuit_assignment inclusion_proving_key locator
        proving_tasks inclusion_assignments (default : R) =
      .error ("Inclusion expected the global state root in the execution to *not* be zero") ∧
    Trace.prove_batch engine to_circuit_assignment inclusion_proving_key locator
        proving_tasks inclusion_assignments (default : R) =
      Trace.prove_batch engine' to_circuit_assignment inclusion_proving_key locator
        proving_tasks inclusion_assignments (default : R) := by
  have h : ∀ (en : String → List (Locator × PK × List A) → Except String Pf),
      Trace.prove_batch en to_circuit_assignment inclusion_proving_key locator
        proving_tasks inclusion_assignments (default : R) =
      .error ("Inclusion expected the global state root in the execution to *not* be zero") := by
    intro en
    rw [Trace.prove_batch, if_pos rfl]
  exact ⟨h engine, by rw [h engine, h engine']⟩

/-- Claim C4: if some inclusion assignment's embedded root differs from
the supplied global root, `prove_batch` fails, its result does not
depend on the Key Batch Engine (which is therefore never invoked), and
— when the root is not the zero sentinel and every conversion succeeds
— the failure is the root-consistency error.  In particular a list with
two entries carrying different roots has an entry differing from the
argument, so the call fails. -/
theorem claim_C4_root_mismatch [DecidableEq R] [Inhabited R]
    (engine engine' : String → List (Locator × PK × List A) → Except String Pf)
    (to_circuit_assignment : InclusionAssignment R → Except String A)
    (inclusion_proving_key : PK) (locator : String)
    (proving_tasks : List (Locator × PK × List A))
    (inclusion_assignments : List (InclusionAssignment R)) (g : R)
    (a : InclusionAssignment R) (ha : a ∈ inclusion_assignments)
    (hne : a.state_path.global_state_root ≠ g) :
    (∃ m, Trace.prove_batch engine to_circuit_assignment inclusion_proving_key locator
        proving_tasks inclusion_assignments g = .error m) ∧
    Trace.prove_batch engine to_circuit_assignment inclusion_proving_key locator
        proving_tasks inclusion_assignments g =
      Trace.prove_batch engine' to_circuit_assignment inclusion_proving_key locator
        proving_tasks inclusion_assignments g ∧
    (g ≠ (default : R) → (∀ b ∈ inclusion_assignments, ∃ cb, to_circuit_assignment b = Except.ok cb) →
      Trace.prove_batch engine to_circuit_assignment inclusion_proving_key locator
          proving_tasks inclusion_assignments g =
        .error ("Inclusion expected the global state root to be the same across iterations")) := by
  by_cases hg : g = (default : R)
  · subst hg
    have h : ∀ (en : String → List (Locator × PK × List A) → Except String Pf),
        Trace.prove_batch en to_circuit_assignment inclusion_proving_key locator
          proving_tasks inclusion_assignments (default : R) =
        .error ("Inclusion expected the global state root in the execution to *not* be zero") := by
      intro en
      rw [Trace.prove_batch, if_pos rfl]
    exact ⟨⟨_, h engine⟩, by rw [h engine, h engine'], fun hgg _ => absurd rfl hgg⟩
  · cases hl : batch_inclusions_loop to_circuit_assignment g inclusion_assignments with
    | ok res => exact absurd hl (batch_inclusions_loop_not_ok _ _ ⟨a, ha, hne⟩ res)
    | error e =>
      have h : ∀ (en : String → List (Locator × PK × List A) → Except String Pf),
          Trace.prove_batch en to_circuit_assignment inclusion_proving_key locator
            proving_tasks inclusion_assignments g = .error e := by
        intro en
        rw [Trace.prove_batch, if_neg hg, hl]
      refine ⟨⟨e, h engine⟩, by rw [h engine, h engine'], fun hgg hconv => ?_⟩
      have hmsg := batch_inclusions_loop_mismatch_msg to_circuit_assignment g hconv
        ⟨a, ha, hne⟩
      rw [hl] at hmsg
      injection hmsg with he
      rw [h engine, he]

/-- Witness for C4 at a concrete instantiation: two inclusion
assignments with roots `2` and `3` against global root `2`. -/
theorem claim_C4_root_mismatch_witness :
    ((⟨⟨3⟩⟩ : InclusionAssignment Nat) ∈ c4_ia) ∧
    ((⟨⟨3⟩⟩ : InclusionAssignment Nat).state_path.global_state_root ≠ 2) ∧
    (∃ m, Trace.prove_batch (fun _ _ => (.ok 0 : Except String Nat)) (fun _ => .ok 0)
      1 ("lbl") ([] : List (Locator × Nat × List Nat)) c4_ia 2 = .error m) ∧
    Trace.prove_batch (fun _ _ => (.ok 0 : Except String Nat)) (fun _ => .ok 0)
        1 ("lbl") ([] : List (Locator × Nat × List Nat)) c4_ia 2 =
      .error ("Inclusion expected the global state root to be the same across iterations") := by
  have h := claim_C4_root_mismatch (fun _ _ => (.ok 0 : Except String Nat))
    (fun _ _ => (.ok 0 : Except String Nat)) (fun _ => .ok 0) 1 ("lbl")
    ([] : List (Locator × Nat × List Nat)) c4_ia 2 ⟨⟨3⟩⟩ (by decide) (by decide)
  exact ⟨by decide, by decide, h.1, h.2.2 (by decide) (fun b _ => ⟨0, rfl⟩)⟩

/-- Claim C5: once `prepare` has completed (both write-once cells set),
any further `prepare` or `prepare_async` — with any inclusion behaviour
and hence any query — returns an error and leaves the trace, in
particular its stored inclusion assignments and global state root,
unchanged. -/
theorem claim_C5_prepare_once (t : Trace R A PK ITk)
    (h1 : t.inclusion_assignments.isSome = true)
    (h2 : t.global_state_root.isSome = true)
    (prepare_fee prepare_fee_async :
      Transition → Except String (List (InclusionAssignment R) × R))
    (prepare_execution prepare_execution_async :
      List Transition → Except String (List (InclusionAssignment R) × R)) :
    ((∃ m, (Trace.prepare prepare_fee prepare_execution t).1 = .error m) ∧
      (Trace.prepare prepare_fee prepare_execution t).2 = t) ∧
    ((∃ m, (Trace.prepare_async prepare_fee_async prepare_execution_async t).1 = .error m) ∧
      (Trace.prepare_async prepare_fee_async prepare_execution_async t).2 = t) := by
  obtain ⟨x, hx⟩ := Option.isSome_iff_exists.mp h1
  constructor
  · cases hext : (if t.is_fee then
        match t.transitions with
        | tr :: _ => prepare_fee tr
        | [] => .error ("index out of bounds")
      else prepare_execution t.transitions) with
    | error e =>
      rw [Trace.prepare, hext]
      exact ⟨⟨e, rfl⟩, rfl⟩
    | ok v =>
      obtain ⟨ia0, root0⟩ := v
      have hgoal : Trace.prepare prepare_fee prepare_execution t
          = (.error ("Failed to set inclusion assignments"), t) := by
        rw [Trace.prepare, hext]
        simp only [hx, OnceCell.set]
      rw [hgoal]
      exact ⟨⟨_, rfl⟩, rfl⟩
  · cases hext : (if t.is_fee then
        match t.transitions with
        | tr :: _ => prepare_fee_async tr
        | [] => .error ("index out of bounds")
      else prepare_execution_async t.transitions) with
    | error e =>
      rw [Trace.prepare_async, hext]
      exact ⟨⟨e, rfl⟩, rfl⟩
    | ok v =>
      obtain ⟨ia0, root0⟩ := v
      have hgoal : Trace.prepare_async prepare_fee_async prepare_execution_async t
          = (.error ("Failed to set inclusion assignments"), t) := by
        rw [Trace.prepare_async, hext]
        simp only [hx, OnceCell.set]
      rw [hgoal]
      exact ⟨⟨_, rfl⟩, rfl⟩

/-- Witness for C5 at a concrete instantiation. -/
theorem claim_C5_prepare_once_witness :
    (c5_trace.inclusion_assignments.isSome = true) ∧
    (c5_trace.global_state_root.isSome = true) ∧
    ((∃ m, (Trace.prepare (fun _ => .ok ([], 3)) (fun _ => .ok ([], 3)) c5_trace).1
        = .error m) ∧
      (Trace.prepare (fun _ => .ok ([], 3)) (fun _ => .ok ([], 3)) c5_trace).2 = c5_trace) :=
  ⟨rfl, rfl,
    (claim_C5_prepare_once c5_trace rfl rfl (fun _ => .ok ([], 3)) (fun _ => .ok ([], 3))
      (fun _ => .ok ([], 3)) (fun _ => .ok ([], 3))).1⟩

/-- Looking up a locator after an `entry(..).or_insert(..)`-style
append: the stored proving key is unchanged and the assignment is
appended. -/
theorem tasksLookup_tasksInsert_same {m : List (Locator × PK × List A)}
    (loc : Locator) (pk0 pk1 : PK) (asgs : List A) (a : A)
    (h : tasksLookup loc m = some (pk0, asgs)) :
    tasksLookup loc (tasksInsert loc pk1 a m) = some (pk0, asgs ++ [a]) := by
  induction m with
  | nil => simp [tasksLookup] at h
  | cons p rest ih =>
    obtain ⟨l, pk, asgs0⟩ := p
    by_cases hl : l = loc
    · subst hl
      simp only [tasksLookup, if_pos rfl, Option.some.injEq, Prod.mk.injEq] at h
      obtain ⟨rfl, rfl⟩ := h
      simp [tasksInsert, tasksLookup]
    · simp only [tasksLookup, if_neg hl] at h
      simp only [tasksInsert, if_neg hl, tasksLookup]
      exact ih h

/-- Claim C10: inserting a second transition for an already-present
locator succeeds, appends the assignment, keeps the originally stored
proving key, and silently discards the newly supplied key. -/
theorem claim_C10_first_key_wins
    (inclusion_insert : ITk → List InputID → Transition → Except String ITk)
    (t : Trace R A PK ITk) (input_ids : List InputID) (tr : Transition)
    (pk0 pk1 : PK) (asgs : List A) (a : A) (itk' : ITk)
    (h1 : t.inclusion_assignments.isSome = false)
    (h2 : t.global_state_root.isSome = false)
    (h3 : inclusion_insert t.inclusion_tasks input_ids tr = .ok itk')
    (h4 : tasksLookup (Locator.mk tr.program_id tr.function_name) t.transition_tasks
      = some (pk0, asgs)) :
    ∃ t', Trace.insert_transition inclusion_insert t input_ids tr pk1 a = .ok t' ∧
      tasksLookup (Locator.mk tr.program_id tr.function_name) t'.transition_tasks
        = some (pk0, asgs ++ [a]) ∧
      t'.transitions = t.transitions ++ [tr] := by
  have hres : Trace.insert_transition inclusion_insert t input_ids tr pk1 a
      = .ok ⟨t.transitions ++ [tr],
          tasksInsert (Locator.mk tr.program_id tr.function_name) pk1 a t.transition_tasks,
          itk', t.inclusion_assignments, t.global_state_root⟩ := by
    rw [Trace.insert_transition, if_neg (by simp [h1]), if_neg (by simp [h2]), h3]
  exact ⟨_, hres,
    tasksLookup_tasksInsert_same (Locator.mk tr.program_id tr.function_name)
      pk0 pk1 asgs a h4, rfl⟩

/-- Witness for C10 at a concrete instantiation: proving key `7` is
stored under the locator; inserting with key `9` succeeds, appends the
assignment, and keeps key `7`. -/
theorem claim_C10_first_key_wins_witness :
    (c10_trace.inclusion_assignments.isSome = false) ∧
    (c10_trace.global_state_root.isSome = false) ∧
    (c10_inclusion_insert c10_trace.inclusion_tasks [] c10_tr = .ok ()) ∧
    (tasksLookup (Locator.mk c10_tr.program_id c10_tr.function_name)
        c10_trace.transition_tasks = some (7, [4])) ∧
    (∃ t', Trace.insert_transition c10_inclusion_insert c10_trace [] c10_tr 9 5 = .ok t' ∧
      tasksLookup (Locator.mk c10_tr.program_id c10_tr.function_name) t'.transition_tasks
        = some (7, [4] ++ [5]) ∧
      t'.transitions = c10_trace.transitions ++ [c10_tr]) :=
  ⟨rfl, rfl, rfl, rfl,
    claim_C10_first_key_wins c10_inclusion_insert c10_trace [] c10_tr 7 9 [4] 5 ()
      rfl rfl rfl rfl⟩

end TraceLemmas

end SnarkVM
